import Mathlib

/-!
Formal model of the streaming-transmit subsystem of the `uhd-rust` driver
binding: `TransmitMetadata` and `BurstSpec` (src/uhd/src/transmitter/metadata.rs)
and `TransmitStreamer` with its buffer-geometry validator
(src/uhd/src/transmitter/streamer.rs).

The hardware boundary (the `uhd_sys` FFI crate), the status-translation helper
`check_status`, the `TimeSpec` value type and `StreamCommand` live outside the
given source tree; they are modelled here from the specification of the
external collaborator interface.

Fallible Rust paths are embedded with an explicit `Outcome` type distinguishing
a normal return, a propagated typed error, and a panic/abort.  Calls into the
hardware boundary are recorded in an explicit event trace so that theorems can
speak about whether and when the boundary was contacted.
-/

/-- Modelled from the spec: `TimeSpec`, a hardware-clock timestamp with whole
seconds (64-bit signed integer) and fractional seconds (a 64-bit float in
[0,1), represented here as a rational since the code only stores and reads it
back, never computes with it).  Defined in repository code outside src/. -/
structure TimeSpec where
  seconds : Int
  fraction : ℚ
deriving DecidableEq, Repr

/-- `BurstSpec` from metadata.rs: start/end-of-burst markers supplied by the
caller (`end` is a Lean keyword, hence the trailing underscore). -/
structure BurstSpec where
  start : Bool
  end_ : Bool
deriving DecidableEq, Repr

/-- Modelled from the spec: the typed error of the boundary status convention,
carrying the boundary-reported reason code.  Defined in repository code
(crate error module) outside src/. -/
structure UhdError where
  code : Int
deriving DecidableEq, Repr

/-- Modelled from the spec: `check_status` translates a boundary status code
into a `Result`; status 0 is success, any other status becomes a typed error
carrying that code.  Defined in repository code outside src/. -/
def check_status (status : Int) : Except UhdError Unit :=
  if status = 0 then .ok () else .error ⟨status⟩

/-- Result of running a fallible Rust computation: a normal return, a
propagated typed error (`Result::Err`), or a panic/abort. -/
inductive Outcome (α : Type) where
  | ok (a : α)
  | err (e : UhdError)
  | panic (msg : String)
deriving DecidableEq, Repr

/-- Modelled from the spec: the transfer-descriptor resource at the hardware
boundary (`uhd_sys::uhd_tx_metadata_handle`).  It stores exactly the values
given to `uhd_tx_metadata_make` (has-time-marker, seconds, fraction,
start-of-burst, end-of-burst) and the boundary accessors read them back. -/
structure MetadataHandle where
  has_time_spec : Bool
  full_secs : Int
  frac_secs : ℚ
  start_of_burst : Bool
  end_of_burst : Bool
deriving DecidableEq, Repr

/-- Modelled from the spec: the state of the hardware boundary visible to this
subsystem: the status that `uhd_tx_metadata_make` reports for descriptor
allocation, and the channel count bound to the transfer-channel resource. -/
structure Boundary where
  make_status : Int
  tx_num_channels : Nat
deriving DecidableEq, Repr

/-- One call into the hardware boundary, for the event traces recorded by the
streamer operations. -/
inductive BoundaryCall where
  | metadataMake (h : MetadataHandle)
  | numChannelsQuery
  | send
  | issueStreamCmd
deriving DecidableEq, Repr

/-- `TransmitMetadata` from metadata.rs: owns one transfer-descriptor handle
plus the samples-transmitted count kept on the Rust side. -/
structure TransmitMetadata where
  handle : MetadataHandle
  samples : Nat
deriving DecidableEq, Repr

/-- The handle contents that `uhd_tx_metadata_make` receives from
`TransmitMetadata::default()`: every argument is `Default::default()`, i.e.
no time marker, zero seconds and fraction, both burst flags false. -/
def default_metadata_handle : MetadataHandle :=
  { has_time_spec := false, full_secs := 0, frac_secs := 0
    start_of_burst := false, end_of_burst := false }

/-- `TransmitMetadata::new` from metadata.rs: builds the descriptor from the
burst spec and the optional time spec (`Default::default()` components when the
time spec is absent) and calls `uhd_tx_metadata_make`, unwrapping the status:
a failing status is a panic, not a propagated error.  The samples count starts
at 0. -/
def TransmitMetadata.new (bnd : Boundary) (burst_spec : BurstSpec)
    (time_spec : Option TimeSpec) : Outcome TransmitMetadata :=
  let has_time_spec := time_spec.isSome
  let secs : Int × ℚ :=
    match time_spec with
    | some t => (t.seconds, t.fraction)
    | none => (0, 0)
  match check_status bnd.make_status with
  | .ok _ =>
      .ok { handle := { has_time_spec := has_time_spec, full_secs := secs.1
                        frac_secs := secs.2, start_of_burst := burst_spec.start
                        end_of_burst := burst_spec.end_ }
            samples := 0 }
  | .error _ => .panic "called Result unwrap on an Err value"

/-- `TransmitMetadata::default` from metadata.rs: calls `uhd_tx_metadata_make`
with all-default arguments, unwrapping the status. -/
def TransmitMetadata.mkDefault (bnd : Boundary) : Outcome TransmitMetadata :=
  match check_status bnd.make_status with
  | .ok _ => .ok { handle := default_metadata_handle, samples := 0 }
  | .error _ => .panic "called Result unwrap on an Err value"

/-- `TransmitMetadata::has_time_spec` from metadata.rs: queries the descriptor
for the has-time-marker flag. -/
def TransmitMetadata.has_time_spec (m : TransmitMetadata) : Bool :=
  m.handle.has_time_spec

/-- `TransmitMetadata::time_spec` from metadata.rs: `None` when no time marker
was set; otherwise rebuilds the `TimeSpec` from the descriptor seconds (read as
`time_t` and converted to i64) and fraction components. -/
def TransmitMetadata.time_spec (m : TransmitMetadata) : Option TimeSpec :=
  if m.has_time_spec then
    some { seconds := m.handle.full_secs, fraction := m.handle.frac_secs }
  else
    none

/-- `TransmitMetadata::start_of_burst` from metadata.rs. -/
def TransmitMetadata.start_of_burst (m : TransmitMetadata) : Bool :=
  m.handle.start_of_burst

/-- `TransmitMetadata::end_of_burst` from metadata.rs. -/
def TransmitMetadata.end_of_burst (m : TransmitMetadata) : Bool :=
  m.handle.end_of_burst

/-- `TransmitMetadata::samples` from metadata.rs: returns the recorded count. -/
def TransmitMetadata.samples_count (m : TransmitMetadata) : Nat :=
  m.samples

/-- `TransmitMetadata::set_samples` from metadata.rs. -/
def TransmitMetadata.set_samples (m : TransmitMetadata) (samples : Nat) :
    TransmitMetadata :=
  { m with samples := samples }

/-- Modelled from the spec: `StreamCommand`, a start/stop streaming control
command.  Defined in repository code (crate stream module) outside src/; the
spec leaves its exact state machine open, so only the start/stop alternatives
named by the spec are modelled. -/
inductive StreamCommand where
  | start
  | stop
deriving DecidableEq, Repr

/-- A cached channel-buffer address, as stored in the streamer pointer cache
(`Vec<*mut c_void>`).  A shallow stand-in for a raw pointer: either null or
the address of a concrete channel buffer, identified by its contents. -/
inductive BufPtr (I : Type) where
  | null
  | addr (buf : List I)
deriving DecidableEq, Repr

/-- `TransmitStreamer` from streamer.rs: the streamer handle together with the
pointer-cache vector (lifetime and item phantom fields carry no state). -/
structure TransmitStreamer (I : Type) where
  handle : Nat
  buffer_pointers : List (BufPtr I)
deriving DecidableEq, Repr

/-- `TransmitStreamer::num_channels` from streamer.rs: queries the boundary for
the channel count bound to this streamer. -/
def TransmitStreamer.num_channels {I : Type} (_self : TransmitStreamer I)
    (bnd : Boundary) : Nat :=
  bnd.tx_num_channels

/-- `TransmitStreamer::send_command` from streamer.rs: the body is `todo!()`
(the boundary call is commented out), so every invocation panics without
contacting the boundary.  Returns the outcome and the boundary-call trace. -/
def TransmitStreamer.send_command {I : Type} (_self : TransmitStreamer I)
    (_command : StreamCommand) : Outcome Unit × List BoundaryCall :=
  (.panic "not yet implemented", [])

/-- The fold inside `check_equal_buffer_lengths` from streamer.rs: carries the
first buffer length forward and asserts every later buffer matches it,
panicking on a mismatch. -/
def equal_lengths_fold {I : Type} (prev_size : Option Nat)
    (buffers : List (List I)) : Outcome (Option Nat) :=
  match buffers with
  | [] => .ok prev_size
  | buffer :: rest =>
    match prev_size with
    | none => equal_lengths_fold (some buffer.length) rest
    | some p =>
      if p = buffer.length then equal_lengths_fold (some p) rest
      else .panic "Unequal buffer sizes"

/-- `check_equal_buffer_lengths` from streamer.rs: the fold over the buffers,
with `unwrap_or(0)` on the resulting optional length. -/
def check_equal_buffer_lengths {I : Type} (buffers : List (List I)) :
    Outcome Nat :=
  match equal_lengths_fold none buffers with
  | .ok r => .ok (r.getD 0)
  | .err e => .err e
  | .panic msg => .panic msg

/-- Everything a call to `TransmitStreamer::transmit` leaves behind: the
returned value (or panic), the streamer after the call (its `&mut self`
state), the caller buffers after the call (their `&mut` state), and the trace
of boundary calls made. -/
structure TransmitResult (I : Type) where
  outcome : Outcome TransmitMetadata
  streamer : TransmitStreamer I
  buffers : List (List I)
  calls : List BoundaryCall
deriving DecidableEq, Repr

/-- `TransmitStreamer::transmit` from streamer.rs, step by step:
constructs a default `TransmitMetadata` (a boundary descriptor allocation,
unwrapped); sizes the pointer cache to `num_channels()` (a boundary query)
when it is empty; asserts the buffer count matches the cache length; checks
the buffers share one length; refills the cache with the buffer addresses.
The `uhd_tx_streamer_send` boundary call and `set_samples` are commented out
in the source, so no send event is ever emitted and the default metadata is
returned as is. -/
def TransmitStreamer.transmit {I : Type} (self : TransmitStreamer I)
    (bnd : Boundary) (buffers : List (List I)) (_timeout : ℚ)
    (_one_packet : Bool) : TransmitResult I :=
  match TransmitMetadata.mkDefault bnd with
  | .err e =>
      { outcome := .err e, streamer := self, buffers := buffers
        calls := [.metadataMake default_metadata_handle] }
  | .panic msg =>
      { outcome := .panic msg, streamer := self, buffers := buffers
        calls := [.metadataMake default_metadata_handle] }
  | .ok metadata =>
    let sizing := self.buffer_pointers.isEmpty
    let bp : List (BufPtr I) :=
      if sizing then List.replicate (self.num_channels bnd) BufPtr.null
      else self.buffer_pointers
    let calls : List BoundaryCall :=
      if sizing then [.metadataMake default_metadata_handle, .numChannelsQuery]
      else [.metadataMake default_metadata_handle]
    if buffers.length = bp.length then
      match check_equal_buffer_lengths buffers with
      | .ok _buffer_length =>
          let bp2 := (bp.zip buffers).map (fun p => BufPtr.addr p.2)
            ++ bp.drop buffers.length
          { outcome := .ok metadata
            streamer := { handle := self.handle, buffer_pointers := bp2 }
            buffers := buffers, calls := calls }
      | .err e =>
          { outcome := .err e
            streamer := { handle := self.handle, buffer_pointers := bp }
            buffers := buffers, calls := calls }
      | .panic msg =>
          { outcome := .panic msg
            streamer := { handle := self.handle, buffer_pointers := bp }
            buffers := buffers, calls := calls }
    else
      { outcome := .panic "Number of buffers is not equal to the number of channels of this streamer"
        streamer := { handle := self.handle, buffer_pointers := bp }
        buffers := buffers, calls := calls }

/-- `TransmitStreamer::transmit_simple` from streamer.rs: transmit on a single
buffer with a timeout of 0.1 seconds and `one_packet` disabled. -/
def TransmitStreamer.transmit_simple {I : Type} (self : TransmitStreamer I)
    (bnd : Boundary) (buffer : List I) : TransmitResult I :=
  self.transmit bnd [buffer] (1 / 10) false

/-! ### Claim C2: metadata construction round-trip -/

/-- Claim C2: for every `BurstSpec` `b` and optional `TimeSpec` `t`, when
`TransmitMetadata::new(b, t)` returns an instance `m`, querying it yields
`start_of_burst() = b.start`, `end_of_burst() = b.end`, `time_spec() = t`
(so `None` iff `t` was `None`), and `samples() = 0`. -/
theorem metadata_new_roundtrip (bnd : Boundary) (b : BurstSpec)
    (t : Option TimeSpec) (m : TransmitMetadata)
    (h : TransmitMetadata.new bnd b t = .ok m) :
    m.start_of_burst = b.start ∧ m.end_of_burst = b.end_ ∧
    m.time_spec = t ∧ (m.time_spec = none ↔ t = none) ∧
    m.samples_count = 0 := by
  unfold TransmitMetadata.new check_status at h
  by_cases hs : bnd.make_status = 0
  · simp only [hs, if_pos, Outcome.ok.injEq] at h
    subst h
    cases t <;>
      simp [TransmitMetadata.start_of_burst, TransmitMetadata.end_of_burst,
        TransmitMetadata.time_spec, TransmitMetadata.has_time_spec,
        TransmitMetadata.samples_count]
  · simp [hs] at h

/-- Witness for C2 at a concrete burst spec and time spec. -/
theorem metadata_new_roundtrip_witness :
    TransmitMetadata.new ⟨0, 1⟩ ⟨true, false⟩ (some ⟨7, 1 / 2⟩) =
      .ok { handle := { has_time_spec := true, full_secs := 7, frac_secs := 1 / 2
                        start_of_burst := true, end_of_burst := false }
            samples := 0 } ∧
    ({ handle := { has_time_spec := true, full_secs := 7, frac_secs := 1 / 2
                   start_of_burst := true, end_of_burst := false }
       samples := 0 } : TransmitMetadata).start_of_burst = true ∧
    ({ handle := { has_time_spec := true, full_secs := 7, frac_secs := 1 / 2
                   start_of_burst := true, end_of_burst := false }
       samples := 0 } : TransmitMetadata).end_of_burst = false ∧
    ({ handle := { has_time_spec := true, full_secs := 7, frac_secs := 1 / 2
                   start_of_burst := true, end_of_burst := false }
       samples := 0 } : TransmitMetadata).time_spec = some ⟨7, 1 / 2⟩ ∧
    ({ handle := { has_time_spec := true, full_secs := 7, frac_secs := 1 / 2
                   start_of_burst := true, end_of_burst := false }
       samples := 0 } : TransmitMetadata).samples_count = 0 := by
  have hm : TransmitMetadata.new ⟨0, 1⟩ ⟨true, false⟩ (some ⟨7, 1 / 2⟩) =
      .ok { handle := { has_time_spec := true, full_secs := 7, frac_secs := 1 / 2
                        start_of_burst := true, end_of_burst := false }
            samples := 0 } := rfl
  have h := metadata_new_roundtrip ⟨0, 1⟩ ⟨true, false⟩ (some ⟨7, 1 / 2⟩) _ hm
  exact ⟨hm, h.1, h.2.1, h.2.2.1, h.2.2.2.2⟩

/-! ### Claim C8: default metadata -/

/-- Claim C8: `TransmitMetadata::default()` constructs an instance with
`time_spec() = None`, `start_of_burst() = false`, `end_of_burst() = false`
and `samples() = 0`. -/
theorem metadata_default_fields (bnd : Boundary) (m : TransmitMetadata)
    (h : TransmitMetadata.mkDefault bnd = .ok m) :
    m.time_spec = none ∧ m.start_of_burst = false ∧
    m.end_of_burst = false ∧ m.samples_count = 0 := by
  unfold TransmitMetadata.mkDefault check_status at h
  by_cases hs : bnd.make_status = 0
  · simp only [hs, if_pos, Outcome.ok.injEq] at h
    subst h
    simp [TransmitMetadata.time_spec, TransmitMetadata.has_time_spec,
      TransmitMetadata.start_of_burst, TransmitMetadata.end_of_burst,
      TransmitMetadata.samples_count, default_metadata_handle]
  · simp [hs] at h

/-- Witness for C8 at a boundary whose descriptor allocation succeeds. -/
theorem metadata_default_fields_witness :
    ({ handle := default_metadata_handle, samples := 0 } :
        TransmitMetadata).time_spec = none ∧
    ({ handle := default_metadata_handle, samples := 0 } :
        TransmitMetadata).start_of_burst = false ∧
    ({ handle := default_metadata_handle, samples := 0 } :
        TransmitMetadata).end_of_burst = false ∧
    ({ handle := default_metadata_handle, samples := 0 } :
        TransmitMetadata).samples_count = 0 :=
  metadata_default_fields ⟨0, 1⟩ _ rfl

/-! ### Claim C6: allocation failure in `TransmitMetadata::new` -/

/-- Counterexample for C6: at a boundary whose descriptor allocation fails
(status 1), `TransmitMetadata::new` panics (the status is unwrapped); it does
not return a propagated error value. -/
theorem metadata_new_alloc_failure_cex :
    TransmitMetadata.new ⟨1, 1⟩ ⟨false, false⟩ none =
      .panic "called Result unwrap on an Err value" := rfl

/-- Amended C6: when allocation of the transfer-descriptor resource at the
hardware boundary fails, `TransmitMetadata::new` aborts with a panic (the
failing status is unwrapped) rather than propagating an error to the
caller. -/
theorem metadata_new_alloc_failure_panics (bnd : Boundary) (b : BurstSpec)
    (t : Option TimeSpec) (h : bnd.make_status ≠ 0) :
    TransmitMetadata.new bnd b t =
      .panic "called Result unwrap on an Err value" := by
  unfold TransmitMetadata.new check_status
  simp [h]

/-- Witness for the amended C6 at a failing boundary status. -/
theorem metadata_new_alloc_failure_panics_witness :
    TransmitMetadata.new ⟨3, 2⟩ ⟨true, true⟩ (some ⟨5, 0⟩) =
      .panic "called Result unwrap on an Err value" :=
  metadata_new_alloc_failure_panics ⟨3, 2⟩ ⟨true, true⟩ (some ⟨5, 0⟩)
    (by decide)

/-! ### Claim C7: `send_command` -/

/-- Claim C7 (code bug): `send_command` is an unimplemented stub: for a
concrete streamer and the start command it panics (the body is `todo!()`)
without issuing any boundary call and without returning `Ok` or a typed
error, although its documentation says it sends a stream command. -/
theorem send_command_panics_todo :
    TransmitStreamer.send_command (I := Int) ⟨0, []⟩ StreamCommand.start =
      (Outcome.panic "not yet implemented", []) := rfl

/-! ### Claim C9: `transmit_simple` refinement -/

/-- Claim C9: on a single-channel streamer, `transmit_simple(buf)` produces
exactly the result of `transmit(&mut [buf], 0.1, false)`. -/
theorem transmit_simple_equiv {I : Type} (self : TransmitStreamer I)
    (bnd : Boundary) (buffer : List I) (_h : bnd.tx_num_channels = 1) :
    self.transmit_simple bnd buffer =
      self.transmit bnd [buffer] (1 / 10) false := rfl

/-- Witness for C9 on a concrete single-channel streamer and buffer. -/
theorem transmit_simple_equiv_witness :
    TransmitStreamer.transmit_simple (I := Int) ⟨0, []⟩ ⟨0, 1⟩ [7] =
      TransmitStreamer.transmit ⟨0, []⟩ ⟨0, 1⟩ [[7]] (1 / 10) false :=
  transmit_simple_equiv ⟨0, []⟩ ⟨0, 1⟩ [7] rfl

/-! ### Helper lemmas about the validator fold -/

/-- When every buffer has length `n`, the fold starting from `some n` succeeds
and keeps `n`. -/
theorem equal_lengths_fold_ok_of_all {I : Type} (n : Nat)
    (buffers : List (List I)) (h : ∀ b ∈ buffers, b.length = n) :
    equal_lengths_fold (some n) buffers = .ok (some n) := by
  induction buffers with
  | nil => rfl
  | cons b rest ih =>
    have hb : b.length = n := h b (by simp)
    simp only [equal_lengths_fold]
    rw [if_pos hb.symm]
    exact ih fun x hx => h x (by simp [hx])

/-- When the fold starting from `some n` succeeds, it returns `some n` and
every buffer it saw has length `n`. -/
theorem equal_lengths_fold_all_of_ok {I : Type} (n : Nat)
    (buffers : List (List I)) (r : Option Nat)
    (h : equal_lengths_fold (some n) buffers = .ok r) :
    r = some n ∧ ∀ b ∈ buffers, b.length = n := by
  induction buffers with
  | nil =>
    simp only [equal_lengths_fold, Outcome.ok.injEq] at h
    exact ⟨h.symm, by simp⟩
  | cons b rest ih =>
    simp only [equal_lengths_fold] at h
    by_cases hb : n = b.length
    · rw [if_pos hb] at h
      obtain ⟨hr, hall⟩ := ih h
      exact ⟨hr, by
        intro x hx
        rcases List.mem_cons.mp hx with hx | hx
        · rw [hx, ← hb]
        · exact hall x hx⟩
    · rw [if_neg hb] at h
      exact absurd h (by simp)

/-- The fold never produces a propagated error: it either succeeds or
panics. -/
theorem equal_lengths_fold_ok_or_panic {I : Type} (p : Option Nat)
    (buffers : List (List I)) :
    (∃ r, equal_lengths_fold p buffers = .ok r) ∨
    (∃ msg, equal_lengths_fold p buffers = .panic msg) := by
  induction buffers generalizing p with
  | nil => exact Or.inl ⟨p, rfl⟩
  | cons b rest ih =>
    cases p with
    | none =>
      simpa only [equal_lengths_fold] using ih (some b.length)
    | some n =>
      by_cases hb : n = b.length
      · simpa only [equal_lengths_fold, hb, if_pos] using ih (some n)
      · exact Or.inr ⟨"Unequal buffer sizes", by simp [equal_lengths_fold, hb]⟩

/-! ### Claim C4: the buffer-geometry validator -/

/-- Claim C4: the validator returns 0 on an empty buffer set; on a non-empty
set whose buffers all have one length `n` it returns `n` (in particular the
first buffer length); and on a set containing two buffers of unequal length
it panics rather than returning a recoverable error value. -/
theorem check_equal_buffer_lengths_spec :
    (∀ (I : Type), check_equal_buffer_lengths ([] : List (List I)) = .ok 0) ∧
    (∀ (I : Type) (buffers : List (List I)) (n : Nat), buffers ≠ [] →
      (∀ b ∈ buffers, b.length = n) →
      check_equal_buffer_lengths buffers = .ok n) ∧
    (∀ (I : Type) (buffers : List (List I)) (b1 b2 : List I),
      b1 ∈ buffers → b2 ∈ buffers → b1.length ≠ b2.length →
      ∃ msg, check_equal_buffer_lengths buffers = .panic msg) := by
  refine ⟨fun I => rfl, ?_, ?_⟩
  · intro I buffers n hne hall
    match buffers with
    | [] => exact absurd rfl hne
    | b :: rest =>
      have hb : b.length = n := hall b (by simp)
      have hfold : equal_lengths_fold (some n) rest = .ok (some n) :=
        equal_lengths_fold_ok_of_all n rest fun x hx => hall x (by simp [hx])
      simp only [check_equal_buffer_lengths, equal_lengths_fold, hb, hfold,
        Option.getD_some]
  · intro I buffers b1 b2 h1 h2 hne
    match buffers with
    | [] => exact absurd h1 (by simp)
    | hd :: tl =>
      rcases equal_lengths_fold_ok_or_panic (some hd.length) tl with
        ⟨r, hr⟩ | ⟨msg, hm⟩
      · exfalso
        have hall := (equal_lengths_fold_all_of_ok hd.length tl r hr).2
        have hlen : ∀ b ∈ hd :: tl, b.length = hd.length := by
          intro x hx
          rcases List.mem_cons.mp hx with hx | hx
          · rw [hx]
          · exact hall x hx
        exact hne ((hlen b1 h1).trans (hlen b2 h2).symm)
      · refine ⟨msg, ?_⟩
        simp only [check_equal_buffer_lengths, equal_lengths_fold, hm]

/-- Witness for C4 on concrete equal-length and ragged buffer sets. -/
theorem check_equal_buffer_lengths_spec_witness :
    check_equal_buffer_lengths ([[1, 2], [3, 4]] : List (List Int)) = .ok 2 ∧
    (∃ msg, check_equal_buffer_lengths ([[1, 2], [3]] : List (List Int)) =
      .panic msg) :=
  ⟨check_equal_buffer_lengths_spec.2.1 Int [[1, 2], [3, 4]] 2 (by decide)
      (by decide),
    check_equal_buffer_lengths_spec.2.2 Int [[1, 2], [3]] [1, 2] [3]
      (by decide) (by decide) (by decide)⟩

/-! ### Helper lemmas about `transmit` -/

/-- The pointer-cache length after a `transmit` call: untouched when the
descriptor allocation panics first; otherwise sized to the channel count when
it was empty and kept at its previous length when it was not. -/
theorem transmit_cache_length {I : Type} (self : TransmitStreamer I)
    (bnd : Boundary) (buffers : List (List I)) (timeout : ℚ)
    (one_packet : Bool) :
    (self.transmit bnd buffers timeout
        one_packet).streamer.buffer_pointers.length =
      if bnd.make_status = 0 then
        (if self.buffer_pointers.isEmpty then bnd.tx_num_channels
         else self.buffer_pointers.length)
      else self.buffer_pointers.length := by
  unfold TransmitStreamer.transmit TransmitMetadata.mkDefault check_status
  by_cases hs : bnd.make_status = 0
  case neg => simp [hs]
  simp only [hs, reduceIte]
  by_cases he : self.buffer_pointers.isEmpty
  all_goals simp only [he, reduceIte]
  all_goals repeat' split
  all_goals
    simp_all [TransmitStreamer.num_channels, List.isEmpty_iff,
      List.length_append, List.length_map, List.length_zip,
      List.length_drop, List.length_replicate]

/-- No `transmit` call ever emits a `send` event: the boundary transfer entry
point is commented out in the source. -/
theorem transmit_no_send {I : Type} (self : TransmitStreamer I)
    (bnd : Boundary) (buffers : List (List I)) (timeout : ℚ)
    (one_packet : Bool) :
    BoundaryCall.send ∉ (self.transmit bnd buffers timeout one_packet).calls := by
  unfold TransmitStreamer.transmit TransmitMetadata.mkDefault check_status
  by_cases hs : bnd.make_status = 0
  case neg => simp [hs]
  simp only [hs, reduceIte]
  by_cases he : self.buffer_pointers.isEmpty
  all_goals simp only [he, reduceIte]
  all_goals repeat' split
  all_goals simp_all

/-! ### Claim C5: pointer-cache invariant -/

/-- Claim C5: assuming the cache invariant on entry (non-empty implies length
`num_channels()`), after any `transmit` call the invariant still holds; a
first call (empty cache) that gets past the initial descriptor unwrap sizes
the cache to `num_channels()`; a subsequent call (non-empty cache) never
changes the cache size; and the cache never grows beyond `num_channels()`
entries. -/
theorem transmit_cache_invariant {I : Type} (self : TransmitStreamer I)
    (bnd : Boundary) (buffers : List (List I)) (timeout : ℚ)
    (one_packet : Bool)
    (hinv : self.buffer_pointers ≠ [] →
      self.buffer_pointers.length = bnd.tx_num_channels) :
    ((self.transmit bnd buffers timeout
        one_packet).streamer.buffer_pointers ≠ [] →
      (self.transmit bnd buffers timeout
        one_packet).streamer.buffer_pointers.length = bnd.tx_num_channels) ∧
    (self.buffer_pointers = [] → bnd.make_status = 0 →
      (self.transmit bnd buffers timeout
        one_packet).streamer.buffer_pointers.length = bnd.tx_num_channels) ∧
    (self.buffer_pointers ≠ [] →
      (self.transmit bnd buffers timeout
        one_packet).streamer.buffer_pointers.length =
        self.buffer_pointers.length) ∧
    (self.transmit bnd buffers timeout
      one_packet).streamer.buffer_pointers.length ≤ bnd.tx_num_channels := by
  have hlen := transmit_cache_length self bnd buffers timeout one_packet
  by_cases hs : bnd.make_status = 0 <;>
    by_cases he : self.buffer_pointers.isEmpty <;>
    refine ⟨?_, ?_, ?_, ?_⟩ <;>
    simp_all [List.isEmpty_iff, List.length_eq_zero]

/-- Witness for C5: a first call on an empty cache with two channels. -/
theorem transmit_cache_invariant_witness :
    ((TransmitStreamer.transmit (I := Int) ⟨0, []⟩ ⟨0, 2⟩ [[1, 2], [3, 4]]
        (1 / 10) false).streamer.buffer_pointers ≠ [] →
      (TransmitStreamer.transmit (I := Int) ⟨0, []⟩ ⟨0, 2⟩ [[1, 2], [3, 4]]
        (1 / 10) false).streamer.buffer_pointers.length = 2) ∧
    ((⟨0, []⟩ : TransmitStreamer Int).buffer_pointers = [] → (0 : Int) = 0 →
      (TransmitStreamer.transmit (I := Int) ⟨0, []⟩ ⟨0, 2⟩ [[1, 2], [3, 4]]
        (1 / 10) false).streamer.buffer_pointers.length = 2) ∧
    ((⟨0, []⟩ : TransmitStreamer Int).buffer_pointers ≠ [] →
      (TransmitStreamer.transmit (I := Int) ⟨0, []⟩ ⟨0, 2⟩ [[1, 2], [3, 4]]
        (1 / 10) false).streamer.buffer_pointers.length =
        (⟨0, []⟩ : TransmitStreamer Int).buffer_pointers.length) ∧
    (TransmitStreamer.transmit (I := Int) ⟨0, []⟩ ⟨0, 2⟩ [[1, 2], [3, 4]]
      (1 / 10) false).streamer.buffer_pointers.length ≤ 2 :=
  transmit_cache_invariant ⟨0, []⟩ ⟨0, 2⟩ [[1, 2], [3, 4]] (1 / 10) false
    fun h => absurd rfl h

/-! ### Claim C3: buffer-count mismatch -/

/-- Counterexample for C3: on a fresh two-channel streamer, a `transmit` call
with a single buffer does panic, but only after the boundary was already
contacted twice: the trace holds the descriptor allocation and the
channel-count query, so the abort does not happen "without contacting the
hardware boundary". -/
theorem transmit_mismatch_contacts_boundary_cex :
    (TransmitStreamer.transmit (I := Int) ⟨0, []⟩ ⟨0, 2⟩ [[5]] (1 / 10)
        false).calls =
      [BoundaryCall.metadataMake default_metadata_handle,
        BoundaryCall.numChannelsQuery] ∧
    (TransmitStreamer.transmit (I := Int) ⟨0, []⟩ ⟨0, 2⟩ [[5]] (1 / 10)
        false).outcome =
      Outcome.panic
        "Number of buffers is not equal to the number of channels of this streamer" :=
  ⟨rfl, rfl⟩

/-- Amended C3: under the cache invariant, `transmit` with a buffer count
different from `num_channels()` aborts with a panic (a contract failure, not
a returned error value) and never reaches the boundary transfer entry point,
although it may first allocate a metadata descriptor and query the channel
count at the boundary. -/
theorem transmit_mismatch_aborts {I : Type} (self : TransmitStreamer I)
    (bnd : Boundary) (buffers : List (List I)) (timeout : ℚ)
    (one_packet : Bool)
    (hinv : self.buffer_pointers = [] ∨
      self.buffer_pointers.length = bnd.tx_num_channels)
    (hne : buffers.length ≠ bnd.tx_num_channels) :
    (∃ msg, (self.transmit bnd buffers timeout one_packet).outcome =
      .panic msg) ∧
    BoundaryCall.send ∉
      (self.transmit bnd buffers timeout one_packet).calls := by
  refine ⟨?_, transmit_no_send self bnd buffers timeout one_packet⟩
  by_cases hs : bnd.make_status = 0
  · refine ⟨"Number of buffers is not equal to the number of channels of this streamer", ?_⟩
    unfold TransmitStreamer.transmit TransmitMetadata.mkDefault check_status
    simp only [hs, reduceIte]
    by_cases he : self.buffer_pointers.isEmpty
    all_goals simp only [he, reduceIte]
    · rw [if_neg (by
        simpa [TransmitStreamer.num_channels, List.length_replicate]
          using hne)]
    · simp only [Bool.false_eq_true, reduceIte]
      have hl : self.buffer_pointers.length = bnd.tx_num_channels := by
        rcases hinv with h | h
        · exact absurd h (by simpa [List.isEmpty_iff] using he)
        · exact h
      rw [if_neg (by rw [hl]; exact hne)]
  · refine ⟨"called Result unwrap on an Err value", ?_⟩
    unfold TransmitStreamer.transmit TransmitMetadata.mkDefault check_status
    simp [hs]

/-- Witness for the amended C3: one buffer offered to a two-channel
streamer. -/
theorem transmit_mismatch_aborts_witness :
    (∃ msg, (TransmitStreamer.transmit (I := Int) ⟨0, []⟩ ⟨0, 2⟩ [[5]]
      (1 / 10) false).outcome = .panic msg) ∧
    BoundaryCall.send ∉
      (TransmitStreamer.transmit (I := Int) ⟨0, []⟩ ⟨0, 2⟩ [[5]] (1 / 10)
        false).calls :=
  transmit_mismatch_aborts ⟨0, []⟩ ⟨0, 2⟩ [[5]] (1 / 10) false (Or.inl rfl)
    (by decide)

/-! ### Claim C10: frame effect of `transmit` -/

/-- Claim C10: every `transmit` call leaves the caller-supplied sample buffers
unchanged (it only reads their lengths and records their addresses) and
modifies no streamer state other than the pointer cache: the streamer handle
is preserved. -/
theorem transmit_frame_effect {I : Type} (self : TransmitStreamer I)
    (bnd : Boundary) (buffers : List (List I)) (timeout : ℚ)
    (one_packet : Bool) :
    (self.transmit bnd buffers timeout one_packet).buffers = buffers ∧
    (self.transmit bnd buffers timeout one_packet).streamer.handle =
      self.handle := by
  unfold TransmitStreamer.transmit TransmitMetadata.mkDefault check_status
  by_cases hs : bnd.make_status = 0
  case neg => simp [hs]
  simp only [hs, reduceIte]
  by_cases he : self.buffer_pointers.isEmpty
  all_goals simp only [he, reduceIte]
  all_goals repeat' split
  all_goals simp_all

/-! ### Claim C1: the transfer result metadata -/

/-- Claim C1 (code bug): on a valid single-channel call, `transmit` returns
`Ok` with the default metadata, whose samples count is 0, and never invokes
the boundary send entry point (the `uhd_tx_streamer_send` call and the
`set_samples` update are commented out in the source), so the returned
`samples()` cannot reflect what the hardware boundary transferred. -/
theorem transmit_returns_default_without_boundary_send :
    (TransmitStreamer.transmit (I := Int) ⟨0, []⟩ ⟨0, 1⟩ [[42]] (1 / 10)
        false).outcome =
      Outcome.ok { handle := default_metadata_handle, samples := 0 } ∧
    ({ handle := default_metadata_handle, samples := 0 } :
        TransmitMetadata).samples_count = 0 ∧
    BoundaryCall.send ∉
      (TransmitStreamer.transmit (I := Int) ⟨0, []⟩ ⟨0, 1⟩ [[42]] (1 / 10)
        false).calls := by
  refine ⟨rfl, rfl, ?_⟩
  decide
